import Mathlib

set_option maxHeartbeats 1000000

/-!
Shallow embedding of the game-cover resolver
(source file: src/src/components/instructions-card.tsx).

The embedding models the pure data flow of the provider fetchers and the
batch orchestrator.  Network requests are modelled by an oracle
(`NetEnv`) mapping each item index to the outcome of the HTTP requests
that the code would issue for that item; a fetch that throws, a non-2xx
response and a successful JSON body are the three outcome shapes the
source distinguishes (`fetch` rejection / `!response.ok` /
`response.json()`).
-/

/-- JavaScript `String.prototype.toLowerCase` as used by the source on titles
and platform names (all compared strings are ASCII, where JS agrees with
`Char.toLower`). -/
def jsToLower (s : String) : String := ⟨s.data.map Char.toLower⟩

/-- True when the first list begins with the second (element-wise `==`). -/
def listStartsWith [BEq α] : List α → List α → Bool
  | _, [] => true
  | [], _ :: _ => false
  | a :: as, b :: bs => a == b && listStartsWith as bs

/-- True when the second list occurs contiguously inside the first. -/
def listContainsSub [BEq α] : List α → List α → Bool
  | [], pat => pat.isEmpty
  | a :: as, pat => listStartsWith (a :: as) pat || listContainsSub as pat

/-- JavaScript `String.prototype.includes` (substring test). -/
def jsIncludes (s sub : String) : Bool := listContainsSub s.data sub.data

/-- The user-facing record: `interface GameItem` (lines 73-77 of the source).
`imageUrl?: string` is modelled as an `Option`; `none` is the absent field. -/
structure GameItem where
  title : String
  systemName : String
  imageUrl : Option String
deriving Repr, DecidableEq

/-- Nested platform object of a RAWG candidate (`platform: { id, name }`,
lines 83-88). -/
structure RAWGPlatform where
  id : Nat
  name : String
deriving Repr

/-- One entry of `RAWGGame.platforms`. -/
structure RAWGPlatformEntry where
  platform : RAWGPlatform
deriving Repr

/-- `interface RAWGGame` (lines 79-89); `platforms` is accessed with `?.` in
the source, so it is modelled as optional. -/
structure RAWGGame where
  name : String
  background_image : String
  platforms : Option (List RAWGPlatformEntry)
deriving Repr

/-- `interface RAWGResponse` (lines 91-93); the code guards on
`data.results &&`, so the field is optional here. -/
structure RAWGResponse where
  results : Option (List RAWGGame)
deriving Repr

/-- One box-art reference of a TheGamesDB candidate (lines 101-108). -/
structure TGDBBoxartRef where
  filename : String
  resolution : String
deriving Repr

/-- The `boxart` object of a TheGamesDB candidate (`boxart?: { front?, back? }`,
lines 100-109). -/
structure TGDBBoxart where
  front : Option TGDBBoxartRef
  back : Option TGDBBoxartRef
deriving Repr

/-- `interface TheGamesDBGame` (lines 95-110). -/
structure TGDBGame where
  id : Nat
  game_title : String
  platform : Nat
  boxart : Option TGDBBoxart
deriving Repr

/-- The `data` object of `TheGamesDBResponse` (lines 115-118); the code also
guards on `data.data.games &&`, hence the optional list. -/
structure TGDBData where
  count : Nat
  games : Option (List TGDBGame)
deriving Repr

/-- `interface TheGamesDBResponse` (lines 112-126), restricted to the fields
the code reads; guarded with `data.data &&` in the source. -/
structure TheGamesDBResponse where
  data : Option TGDBData
deriving Repr

/-- One image entry of the TheGamesDB images payload (lines 131-136). -/
structure TGDBImageEntry where
  resolution : String
  filename : String
deriving Repr, DecidableEq

/-- The per-game image collection of `TheGamesDBImageData`: the code reads the
keys `boxart` and `screenshots` of `imagesData.data[id]` (lines 388 and 401);
either key may be missing from the JSON object. -/
structure TGDBGameImages where
  boxart : Option (List TGDBImageEntry)
  screenshots : Option (List TGDBImageEntry)
deriving Repr, DecidableEq

/-- `interface TheGamesDBImageData` (lines 128-138): `base_url` plus a map
keyed by the game id rendered as a string. -/
structure TheGamesDBImageData where
  base_url : String
  data : List (String × TGDBGameImages)
deriving Repr

/-- The `cover` object of an IGDB candidate (lines 143-147). -/
structure IGDBCover where
  id : Nat
  url : Option String
  image_id : String
deriving Repr

/-- `interface IGDBGame` (lines 140-149). -/
structure IGDBGame where
  id : Nat
  name : String
  cover : Option IGDBCover
  platforms : Option (List Nat)
deriving Repr

/-- `interface IGDBAuthResponse` (lines 151-155). -/
structure IGDBAuthResponse where
  access_token : String
  expires_in : Nat
  token_type : String
deriving Repr

/-- `PLATFORM_MAPPING` for RAWG (lines 158-185). -/
def PLATFORM_MAPPING : List (String × List Nat) :=
  [("microsoft windows", [4]),
   ("microsoft xbox 360", [14]),
   ("microsoft xbox", [80]),
   ("nintendo 3ds", [8]),
   ("nintendo 64", [83]),
   ("nintendo ds", [9]),
   ("nintendo gamecube", [11]),
   ("nintendo switch", [7]),
   ("nintendo wii u", [10]),
   ("nintendo wii", [10]),
   ("sega dreamcast", [106]),
   ("sega saturn", [107]),
   ("sony playstation 2", [15]),
   ("sony playstation 3", [16]),
   ("sony playstation 4", [18]),
   ("sony playstation 5", [187]),
   ("sony playstation portable", [17]),
   ("sony playstation vita", [19]),
   ("sony playstation", [27])]

/-- `TGDB_PLATFORM_MAPPING` for TheGamesDB (lines 188-215). -/
def TGDB_PLATFORM_MAPPING : List (String × List Nat) :=
  [("microsoft windows", [1]),
   ("microsoft xbox 360", [15]),
   ("microsoft xbox", [14]),
   ("nintendo 3ds", [4912]),
   ("nintendo 64", [3]),
   ("nintendo ds", [12]),
   ("nintendo gamecube", [2]),
   ("nintendo switch", [4971]),
   ("nintendo wii u", [38]),
   ("nintendo wii", [9]),
   ("sega dreamcast", [16]),
   ("sega saturn", [17]),
   ("sony playstation 2", [8]),
   ("sony playstation 3", [4911]),
   ("sony playstation 4", [4919]),
   ("sony playstation 5", [4980]),
   ("sony playstation portable", [13]),
   ("sony playstation vita", [39]),
   ("sony playstation", [10])]

/-- `IGDB_PLATFORM_MAPPING` for IGDB (lines 218-245). -/
def IGDB_PLATFORM_MAPPING : List (String × List Nat) :=
  [("microsoft windows", [6]),
   ("microsoft xbox 360", [12]),
   ("microsoft xbox", [11]),
   ("nintendo 3ds", [37]),
   ("nintendo 64", [4]),
   ("nintendo ds", [20]),
   ("nintendo gamecube", [21]),
   ("nintendo switch", [130]),
   ("nintendo wii u", [41]),
   ("nintendo wii", [5]),
   ("sega dreamcast", [23]),
   ("sega saturn", [32]),
   ("sony playstation 2", [8]),
   ("sony playstation 3", [9]),
   ("sony playstation 4", [48]),
   ("sony playstation 5", [167]),
   ("sony playstation portable", [38]),
   ("sony playstation vita", [46]),
   ("sony playstation", [7])]

/-- Platform normalization: `TABLE[systemName.toLowerCase()] || []`
(lines 269, 333 and 457 of the source, one table per provider). -/
def normalizePlatform (table : List (String × List Nat)) (systemName : String) :
    List Nat :=
  match table.lookup (jsToLower systemName) with
  | some ids => ids
  | none => []

/-- The best-match selection logic shared verbatim by the three fetchers
(lines 294-313, 356-371 and 484-501): start from the first result, replace it
by the first case-insensitive exact title match if any, else — when platform
ids were resolved — by the first candidate matching a platform id. -/
def pickBestMatch (exactP hitP : α → Bool) (platformIds : List Nat) :
    List α → Option α
  | [] => none
  | first :: rest =>
    some (match (first :: rest).find? exactP with
      | some exactMatch => exactMatch
      | none =>
        if platformIds.length > 0 then
          match (first :: rest).find? hitP with
          | some platformMatch => platformMatch
          | none => first
        else first)

/-- RAWG exact-title predicate: `game.name.toLowerCase() === title.toLowerCase()`
(line 299). -/
def rawgExactP (title : String) (game : RAWGGame) : Bool :=
  jsToLower game.name == jsToLower title

/-- RAWG platform predicate:
`game.platforms?.some((p) => platformIds.includes(p.platform.id))` (line 307). -/
def rawgHitP (platformIds : List Nat) (game : RAWGGame) : Bool :=
  match game.platforms with
  | some ps => ps.any (fun p => platformIds.contains p.platform.id)
  | none => false

/-- The candidate selector of `fetchGameCoverFromRAWG` (lines 294-313). -/
def rawgBestMatch (results : List RAWGGame) (title : String)
    (platformIds : List Nat) : Option RAWGGame :=
  pickBestMatch (rawgExactP title) (rawgHitP platformIds) platformIds results

/-- TheGamesDB exact-title predicate (line 361). -/
def tgdbExactP (title : String) (game : TGDBGame) : Bool :=
  jsToLower game.game_title == jsToLower title

/-- TheGamesDB platform predicate: `platformIds.includes(game.platform)`
(line 367). -/
def tgdbHitP (platformIds : List Nat) (game : TGDBGame) : Bool :=
  platformIds.contains game.platform

/-- The candidate selector of `fetchGameCoverFromTheGamesDB` (lines 356-371). -/
def tgdbBestMatch (games : List TGDBGame) (title : String)
    (platformIds : List Nat) : Option TGDBGame :=
  pickBestMatch (tgdbExactP title) (tgdbHitP platformIds) platformIds games

/-- IGDB exact-title predicate (line 489). -/
def igdbExactP (title : String) (game : IGDBGame) : Bool :=
  jsToLower game.name == jsToLower title

/-- IGDB platform predicate:
`game.platforms?.some((platformId) => platformIds.includes(platformId))`
(line 496). -/
def igdbHitP (platformIds : List Nat) (game : IGDBGame) : Bool :=
  match game.platforms with
  | some ps => ps.any (fun platformId => platformIds.contains platformId)
  | none => false

/-- The candidate selector of `fetchGameCoverFromIGDB` (lines 484-501). -/
def igdbBestMatch (games : List IGDBGame) (title : String)
    (platformIds : List Nat) : Option IGDBGame :=
  pickBestMatch (igdbExactP title) (igdbHitP platformIds) platformIds games

/-- Outcome of one `fetch` call as the source distinguishes them: a rejected
promise or JSON parse error (`netError`), a response with `!response.ok`
(`httpError`, carrying the status the code interpolates into the thrown
message), or a parsed JSON body (`success`). -/
inductive FetchOutcome (α : Type) where
  | netError
  | httpError (status : Nat)
  | success (body : α)
deriving Repr

/-- True unless the outcome is a successful body. -/
def outcomeFailed : FetchOutcome α → Bool
  | .success _ => false
  | _ => true

/-- Result of one per-item fetcher call together with how many HTTP requests
it issued and how many of those were OAuth token exchanges. -/
structure FetchTrace where
  result : String
  requests : Nat
  tokenExchanges : Nat
deriving Repr

/-- `fetchGameCoverFromRAWG` (lines 266-323): one search request; any throw or
non-2xx status is caught and yields the empty string, an empty or missing
result list yields the empty string, otherwise the selected candidate's
`background_image || ""` is returned. -/
def fetchGameCoverFromRAWG (outcome : FetchOutcome RAWGResponse)
    (title systemName : String) (apiKey : Option String) : FetchTrace :=
  match outcome with
  | .success data =>
    { result :=
        match data.results with
        | some results =>
          match rawgBestMatch results title
              (normalizePlatform PLATFORM_MAPPING systemName) with
          | some bestMatch => bestMatch.background_image
          | none => ""
        | none => ""
      requests := 1
      tokenExchanges := 0 }
  | _ => { result := "", requests := 1, tokenExchanges := 0 }

/-- The screenshot fallback reached when the boxart block of
`fetchGameCoverFromTheGamesDB` does not return (lines 400-404): the first
screenshot if the list is present and non-empty, else no cover.  In the
source this is straight-line code after the boxart block; it is reached when
`gameImages.boxart` is absent or both inner boxart branches fail (which in JS
requires the boxart array to be empty, since arrays are truthy). -/
def tgdbScreenshotFallback (imagesData : TheGamesDBImageData)
    (gameImages : TGDBGameImages) : String :=
  match gameImages.screenshots with
  | some (firstShot :: _) => imagesData.base_url ++ "/screenshots/" ++ firstShot.filename
  | _ => ""

/-- The image-resolution step of `fetchGameCoverFromTheGamesDB` over a parsed
images payload (lines 384-404): look up the per-game collection keyed by the
candidate id rendered as a string; prefer a boxart entry whose filename
contains "front", else the first boxart entry, else the first screenshot,
else no cover. -/
def tgdbResolveImages (imagesData : TheGamesDBImageData) (gameId : Nat) :
    String :=
  match imagesData.data.lookup (toString gameId) with
  | some gameImages =>
    match gameImages.boxart with
    | some boxart =>
      match boxart.find? (fun img => jsIncludes img.filename "front") with
      | some frontBoxart =>
        imagesData.base_url ++ "/boxart/front/" ++ frontBoxart.filename
      | none =>
        match boxart with
        | firstBoxart :: _ =>
          imagesData.base_url ++ "/boxart/front/" ++ firstBoxart.filename
        | [] => tgdbScreenshotFallback imagesData gameImages
    | none => tgdbScreenshotFallback imagesData gameImages
  | none => ""

/-- `fetchGameCoverFromTheGamesDB` (lines 325-413): a missing key returns the
empty string without any request; otherwise one search request; when the
selected candidate carries `boxart?.front` a second request to the images
endpoint is issued and resolved by `tgdbResolveImages`; every failure is
caught and yields the empty string. -/
def fetchGameCoverFromTheGamesDB (searchOutcome : FetchOutcome TheGamesDBResponse)
    (imagesOutcome : FetchOutcome TheGamesDBImageData)
    (title systemName : String) (apiKey : String) : FetchTrace :=
  if apiKey = "" then { result := "", requests := 0, tokenExchanges := 0 }
  else
    match searchOutcome with
    | .success data =>
      match data.data with
      | some dataData =>
        match dataData.games with
        | some games =>
          match tgdbBestMatch games title
              (normalizePlatform TGDB_PLATFORM_MAPPING systemName) with
          | some bestMatch =>
            match bestMatch.boxart with
            | some boxart =>
              match boxart.front with
              | some _front =>
                match imagesOutcome with
                | .success imagesData =>
                  { result := tgdbResolveImages imagesData bestMatch.id,
                    requests := 2, tokenExchanges := 0 }
                | _ => { result := "", requests := 2, tokenExchanges := 0 }
              | none => { result := "", requests := 1, tokenExchanges := 0 }
            | none => { result := "", requests := 1, tokenExchanges := 0 }
          | none => { result := "", requests := 1, tokenExchanges := 0 }
        | none => { result := "", requests := 1, tokenExchanges := 0 }
      | none => { result := "", requests := 1, tokenExchanges := 0 }
    | _ => { result := "", requests := 1, tokenExchanges := 0 }

/-- `getIGDBAccessToken` (lines 415-439): one POST to the token endpoint;
a throw or non-2xx status is rethrown to the caller (modelled as `none`),
success yields the access token. -/
def getIGDBAccessToken (outcome : FetchOutcome IGDBAuthResponse) :
    Option String :=
  match outcome with
  | .success data => some data.access_token
  | _ => none

/-- `fetchGameCoverFromIGDB` (lines 441-515): missing credentials return the
empty string with no request; otherwise a token exchange is performed, then
one search request; the cover URL is built from `cover.image_id` when that
field is present and truthy (a non-empty string); every failure is caught and
yields the empty string. -/
def fetchGameCoverFromIGDB (authOutcome : FetchOutcome IGDBAuthResponse)
    (searchOutcome : FetchOutcome (List IGDBGame))
    (title systemName : String) (clientId clientSecret : String) : FetchTrace :=
  if clientId = "" ∨ clientSecret = "" then
    { result := "", requests := 0, tokenExchanges := 0 }
  else
    match getIGDBAccessToken authOutcome with
    | none => { result := "", requests := 1, tokenExchanges := 1 }
    | some _accessToken =>
      match searchOutcome with
      | .success games =>
        { result :=
            match igdbBestMatch games title
                (normalizePlatform IGDB_PLATFORM_MAPPING systemName) with
            | some bestMatch =>
              match bestMatch.cover with
              | some cover =>
                if cover.image_id = "" then ""
                else "https://images.igdb.com/igdb/image/upload/t_cover_big/"
                  ++ cover.image_id ++ ".jpg"
              | none => ""
            | none => ""
          requests := 2
          tokenExchanges := 1 }
      | _ => { result := "", requests := 2, tokenExchanges := 1 }

/-- The provider selected by the user: `type ApiType` (line 248). -/
inductive ApiType where
  | rawg
  | thegamesdb
  | igdb
deriving DecidableEq, Repr

/-- The credential fields held by the component state (lines 549-552); the
source tests them for JS truthiness, so the empty string is "missing". -/
structure Credentials where
  rawgApiKey : String
  tgdbApiKey : String
  igdbClientId : String
  igdbClientSecret : String
deriving Repr

/-- Network oracle: for each item index, the outcome of each request the code
could issue while processing that item. -/
structure NetEnv where
  rawgSearch : Nat → FetchOutcome RAWGResponse
  tgdbSearch : Nat → FetchOutcome TheGamesDBResponse
  tgdbImages : Nat → FetchOutcome TheGamesDBImageData
  igdbAuth : Nat → FetchOutcome IGDBAuthResponse
  igdbSearch : Nat → FetchOutcome (List IGDBGame)

/-- The per-item dispatch of `processGames` (lines 616-622), including
`rawgApiKey || undefined` on line 617. -/
def fetchItemCover (api : ApiType) (env : NetEnv) (i : Nat) (game : GameItem)
    (creds : Credentials) : FetchTrace :=
  match api with
  | .rawg =>
    fetchGameCoverFromRAWG (env.rawgSearch i) game.title game.systemName
      (if creds.rawgApiKey = "" then none else some creds.rawgApiKey)
  | .thegamesdb =>
    fetchGameCoverFromTheGamesDB (env.tgdbSearch i) (env.tgdbImages i)
      game.title game.systemName creds.tgdbApiKey
  | .igdb =>
    fetchGameCoverFromIGDB (env.igdbAuth i) (env.igdbSearch i)
      game.title game.systemName creds.igdbClientId creds.igdbClientSecret

/-- The structure validation of `processGames` (lines 599-603): every parsed
element must have a truthy `title` and `systemName`. -/
def validateGames (games : List GameItem) : Bool :=
  games.all (fun game => !(game.title = "") && !(game.systemName = ""))

/-- The sequential loop of `processGames` (lines 610-641): for each item, in
order, fetch a cover and push `{ ...game, imageUrl: imageUrl || undefined }`
(lines 624-627); the empty string therefore becomes an absent field.  Returns
the accumulated list plus the total request and token-exchange counts. -/
def processLoop (api : ApiType) (env : NetEnv) (creds : Credentials) :
    List GameItem → Nat → List GameItem × Nat × Nat
  | [], _ => ([], 0, 0)
  | game :: rest, i =>
    let t := fetchItemCover api env i game creds
    let r := processLoop api env creds rest (i + 1)
    ({ game with imageUrl := if t.result = "" then none else some t.result } :: r.1,
     t.requests + r.2.1, t.tokenExchanges + r.2.2)

/-- Result of one invocation of the orchestrator: the value of `outputJson`
after the run, the value of `error` (`none` is the cleared error of a
completed run), and the request counters accumulated over the run. -/
structure BatchTrace where
  output : List GameItem
  error : Option String
  requests : Nat
  tokenExchanges : Nat

/-- The batch orchestrator `processGames` (lines 562-663) over an
already-parsed input list: the credential preconditions (lines 568-588)
abort before any request; a validation failure (lines 594-603) is thrown and
caught by the outer handler, aborting with no requests; otherwise the
sequential loop runs and its result replaces the output.  `prevOutput` is the
`outputJson` state before the run, which an aborted run leaves unchanged. -/
def processGames (api : ApiType) (creds : Credentials) (env : NetEnv)
    (inputGames : List GameItem) (prevOutput : List GameItem) : BatchTrace :=
  if api = ApiType.thegamesdb ∧ creds.tgdbApiKey = "" then
    { output := prevOutput,
      error := some "TheGamesDB API requires an API key",
      requests := 0, tokenExchanges := 0 }
  else if api = ApiType.igdb ∧ (creds.igdbClientId = "" ∨ creds.igdbClientSecret = "") then
    { output := prevOutput,
      error := some "IGDB API requires both Client ID and Client Secret",
      requests := 0, tokenExchanges := 0 }
  else if validateGames inputGames then
    let r := processLoop api env creds inputGames 0
    { output := r.1, error := none, requests := r.2.1, tokenExchanges := r.2.2 }
  else
    { output := prevOutput,
      error := some "Each game must have title and systemName properties",
      requests := 0, tokenExchanges := 0 }

/-- Failure of the per-item lookup as the spec lists it (network error,
non-2xx status, or unexpected payload shape), expressed on the oracle: the
search (and for IGDB the token) request fails or the payload lacks the
expected containers; for TheGamesDB a failing secondary images request also
fails the lookup. -/
def itemLookupFailed (api : ApiType) (env : NetEnv) (i : Nat) : Bool :=
  match api with
  | .rawg =>
    match env.rawgSearch i with
    | .success data => data.results.isNone
    | _ => true
  | .thegamesdb =>
    (match env.tgdbSearch i with
     | .success data =>
       match data.data with
       | some dataData => dataData.games.isNone
       | none => true
     | _ => true) || outcomeFailed (env.tgdbImages i)
  | .igdb => outcomeFailed (env.igdbAuth i) || outcomeFailed (env.igdbSearch i)

/-- Modelled from the spec: "a syntactically valid absolute URL" — a string
carrying an explicit scheme, here an `http://` or `https://` prefix followed
by a non-empty remainder.  The source never checks this; the predicate only
formalises the spec's words. -/
def isValidAbsoluteUrl (s : String) : Bool :=
  (listStartsWith s.data "http://".data && decide (7 < s.data.length)) ||
  (listStartsWith s.data "https://".data && decide (8 < s.data.length))

theorem pickBestMatch_isSome {exactP hitP : α → Bool} {platformIds : List Nat}
    {l : List α} (hl : l ≠ []) :
    (pickBestMatch exactP hitP platformIds l).isSome = true := by
  match l with
  | [] => exact absurd rfl hl
  | first :: rest => simp [pickBestMatch]

theorem pickBestMatch_exact {exactP hitP : α → Bool} {platformIds : List Nat}
    {l : List α} {g : α} (hg : l.find? exactP = some g) :
    pickBestMatch exactP hitP platformIds l = some g := by
  match l with
  | [] => simp [List.find?] at hg
  | first :: rest => simp [pickBestMatch, hg]

theorem pickBestMatch_platform {exactP hitP : α → Bool} {platformIds : List Nat}
    {l : List α} {g : α} (h1 : l.find? exactP = none)
    (h2 : platformIds ≠ []) (hg : l.find? hitP = some g) :
    pickBestMatch exactP hitP platformIds l = some g := by
  match l with
  | [] => simp [List.find?] at hg
  | first :: rest =>
    have hlen : platformIds.length > 0 := List.length_pos.mpr h2
    simp [pickBestMatch, h1, hlen, hg]

theorem pickBestMatch_first {exactP hitP : α → Bool} {platformIds : List Nat}
    {l : List α} (h1 : l.find? exactP = none)
    (h2 : platformIds = [] ∨ l.find? hitP = none) :
    pickBestMatch exactP hitP platformIds l = l.head? := by
  match l with
  | [] => rfl
  | first :: rest =>
    rcases h2 with h2 | h2
    · subst h2; simp [pickBestMatch, h1]
    · by_cases hlen : platformIds.length > 0
      · simp [pickBestMatch, h1, hlen, h2]
      · simp [pickBestMatch, h1, hlen]

/-- Claim C1: for every non-empty candidate list, input title and resolved
platform-id list, the candidate selector of each of the three providers is
total (returns a candidate), returns the first case-insensitively exact title
match when one exists, else — when the platform-id list is non-empty — the
first candidate whose platform reference(s) intersect it when one exists,
else the first candidate in returned order. -/
theorem selector_tie_break_policy :
    ∀ (title : String) (platformIds : List Nat),
      (∀ l : List RAWGGame, l ≠ [] →
        (rawgBestMatch l title platformIds).isSome = true
        ∧ (∀ g, l.find? (rawgExactP title) = some g →
            rawgBestMatch l title platformIds = some g)
        ∧ (l.find? (rawgExactP title) = none → platformIds ≠ [] →
            ∀ g, l.find? (rawgHitP platformIds) = some g →
              rawgBestMatch l title platformIds = some g)
        ∧ (l.find? (rawgExactP title) = none →
            (platformIds = [] ∨ l.find? (rawgHitP platformIds) = none) →
              rawgBestMatch l title platformIds = l.head?))
      ∧ (∀ l : List TGDBGame, l ≠ [] →
        (tgdbBestMatch l title platformIds).isSome = true
        ∧ (∀ g, l.find? (tgdbExactP title) = some g →
            tgdbBestMatch l title platformIds = some g)
        ∧ (l.find? (tgdbExactP title) = none → platformIds ≠ [] →
            ∀ g, l.find? (tgdbHitP platformIds) = some g →
              tgdbBestMatch l title platformIds = some g)
        ∧ (l.find? (tgdbExactP title) = none →
            (platformIds = [] ∨ l.find? (tgdbHitP platformIds) = none) →
              tgdbBestMatch l title platformIds = l.head?))
      ∧ (∀ l : List IGDBGame, l ≠ [] →
        (igdbBestMatch l title platformIds).isSome = true
        ∧ (∀ g, l.find? (igdbExactP title) = some g →
            igdbBestMatch l title platformIds = some g)
        ∧ (l.find? (igdbExactP title) = none → platformIds ≠ [] →
            ∀ g, l.find? (igdbHitP platformIds) = some g →
              igdbBestMatch l title platformIds = some g)
        ∧ (l.find? (igdbExactP title) = none →
            (platformIds = [] ∨ l.find? (igdbHitP platformIds) = none) →
              igdbBestMatch l title platformIds = l.head?)) := by
  intro title platformIds
  refine ⟨fun l hl => ?_, fun l hl => ?_, fun l hl => ?_⟩ <;>
    exact ⟨pickBestMatch_isSome hl,
      fun g hg => pickBestMatch_exact hg,
      fun h1 h2 g hg => pickBestMatch_platform h1 h2 hg,
      fun h1 h2 => pickBestMatch_first h1 h2⟩

/-- Witness for C1: the selector applied to a concrete singleton list. -/
theorem selector_tie_break_policy_witness :
    (rawgBestMatch [⟨"Halo", "https://img/h.jpg", none⟩] "Halo" []).isSome = true :=
  ((selector_tie_break_policy "Halo" []).1
    [⟨"Halo", "https://img/h.jpg", none⟩] (List.cons_ne_nil _ _)).1

/-- Claim C2 counterexample: on the fixture of the spec — candidates
named "Foo 2" (platform 1) and "Foo" (platform 2), title "Foo", platform ids
[2] — the selector does not pick the candidate named "Foo 2". -/
theorem rawg_fixture_not_foo2 :
    ¬ ((rawgBestMatch
        [⟨"Foo 2", "", some [⟨⟨1, ""⟩⟩]⟩, ⟨"Foo", "", some [⟨⟨2, ""⟩⟩]⟩]
        "Foo" [2]).map RAWGGame.name = some "Foo 2") := by decide

/-- Claim C2 as amended: on that fixture the selector picks the candidate
named "Foo" — the case-insensitively exact title match (which here also
satisfies the platform filter); exact-match precedence still holds, but the
selected candidate is "Foo", not "Foo 2". -/
theorem rawg_fixture_picks_exact_foo :
    (rawgBestMatch
      [⟨"Foo 2", "", some [⟨⟨1, ""⟩⟩]⟩, ⟨"Foo", "", some [⟨⟨2, ""⟩⟩]⟩]
      "Foo" [2]).map RAWGGame.name = some "Foo" := by decide

/-- Claim C8: for every provider table, platform normalization is
deterministic and case-insensitive — inputs with the same lower-casing yield
the same identifier list, and a name not found in the table yields the empty
list rather than an error; in particular "Nintendo GameCube" and
"nintendo gamecube" agree on all three provider tables. -/
theorem platform_normalization_case_insensitive :
    (∀ (table : List (String × List Nat)) (s t : String),
      jsToLower s = jsToLower t →
        normalizePlatform table s = normalizePlatform table t)
    ∧ (∀ (table : List (String × List Nat)) (s : String),
        table.lookup (jsToLower s) = none → normalizePlatform table s = [])
    ∧ normalizePlatform PLATFORM_MAPPING "Nintendo GameCube"
        = normalizePlatform PLATFORM_MAPPING "nintendo gamecube"
    ∧ normalizePlatform TGDB_PLATFORM_MAPPING "Nintendo GameCube"
        = normalizePlatform TGDB_PLATFORM_MAPPING "nintendo gamecube"
    ∧ normalizePlatform IGDB_PLATFORM_MAPPING "Nintendo GameCube"
        = normalizePlatform IGDB_PLATFORM_MAPPING "nintendo gamecube" := by
  refine ⟨fun table s t h => ?_, fun table s h => ?_, by decide, by decide, by decide⟩
  · unfold normalizePlatform
    rw [h]
  · unfold normalizePlatform
    rw [h]

/-- Witness for C8: the case-insensitivity part applied to the concrete pair
given in the spec, on the RAWG table. -/
theorem platform_normalization_case_insensitive_witness :
    normalizePlatform PLATFORM_MAPPING "Nintendo GameCube"
      = normalizePlatform PLATFORM_MAPPING "NINTENDO GAMECUBE" :=
  platform_normalization_case_insensitive.1 PLATFORM_MAPPING
    "Nintendo GameCube" "NINTENDO GAMECUBE" (by decide)

theorem processLoop_out_get? (api : ApiType) (env : NetEnv) (creds : Credentials) :
    ∀ (games : List GameItem) (i j : Nat),
      (processLoop api env creds games i).1.get? j =
        (games.get? j).map (fun game =>
          { game with imageUrl :=
              if (fetchItemCover api env (i + j) game creds).result = "" then none
              else some (fetchItemCover api env (i + j) game creds).result }) := by
  intro games
  induction games with
  | nil => intro i j; simp [processLoop]
  | cons game rest ih =>
    intro i j
    cases j with
    | zero => simp [processLoop]
    | succ j =>
      have := ih (i + 1) j
      simp only [processLoop, List.get?_cons_succ, this, Nat.add_succ, Nat.succ_add]

theorem processLoop_length (api : ApiType) (env : NetEnv) (creds : Credentials) :
    ∀ (games : List GameItem) (i : Nat),
      (processLoop api env creds games i).1.length = games.length := by
  intro games
  induction games with
  | nil => intro i; simp [processLoop]
  | cons game rest ih => intro i; simp [processLoop, ih (i + 1)]

theorem processGames_completed_output {api : ApiType} {creds : Credentials}
    {env : NetEnv} {games prev : List GameItem}
    (h : (processGames api creds env games prev).error = none) :
    (processGames api creds env games prev).output
      = (processLoop api env creds games 0).1 := by
  unfold processGames at h ⊢
  split_ifs at h ⊢ with h1 h2 h3
  all_goals simp_all

/-- Claim C4: in a completed run the output list has exactly the input's
length and the element at each index carries the title and system name of the
input element at that index. -/
theorem processGames_preserves_length_and_order :
    ∀ (api : ApiType) (creds : Credentials) (env : NetEnv)
      (games prev : List GameItem),
      (processGames api creds env games prev).error = none →
      (processGames api creds env games prev).output.length = games.length
      ∧ ∀ i : Nat,
          ((processGames api creds env games prev).output.get? i).map GameItem.title
            = (games.get? i).map GameItem.title
          ∧ ((processGames api creds env games prev).output.get? i).map GameItem.systemName
            = (games.get? i).map GameItem.systemName := by
  intro api creds env games prev h
  rw [processGames_completed_output h]
  refine ⟨processLoop_length api env creds games 0, fun i => ?_⟩
  rw [processLoop_out_get?]
  cases games.get? i <;> simp

/-- Witness for C4: a concrete one-item run preserves the length. -/
theorem processGames_preserves_length_and_order_witness :
    (processGames ApiType.rawg ⟨"", "", "", ""⟩
      ⟨fun _ => FetchOutcome.netError, fun _ => FetchOutcome.netError,
       fun _ => FetchOutcome.netError, fun _ => FetchOutcome.netError,
       fun _ => FetchOutcome.netError⟩
      [⟨"Halo", "Microsoft Xbox", none⟩] []).output.length
      = [(⟨"Halo", "Microsoft Xbox", none⟩ : GameItem)].length :=
  (processGames_preserves_length_and_order ApiType.rawg ⟨"", "", "", ""⟩
    ⟨fun _ => FetchOutcome.netError, fun _ => FetchOutcome.netError,
     fun _ => FetchOutcome.netError, fun _ => FetchOutcome.netError,
     fun _ => FetchOutcome.netError⟩
    [⟨"Halo", "Microsoft Xbox", none⟩] [] (by decide)).1

theorem fetchTGDB_failed (searchO : FetchOutcome TheGamesDBResponse)
    (imagesO : FetchOutcome TheGamesDBImageData) (title systemName apiKey : String)
    (h : ((match searchO with
          | FetchOutcome.success data =>
            match data.data with
            | some dataData => dataData.games.isNone
            | none => true
          | _ => true) || outcomeFailed imagesO) = true) :
    (fetchGameCoverFromTheGamesDB searchO imagesO title systemName apiKey).result = "" := by
  by_cases hk : apiKey = ""
  · simp [fetchGameCoverFromTheGamesDB, hk]
  · rcases searchO with _ | st | data
    · simp [fetchGameCoverFromTheGamesDB, hk]
    · simp [fetchGameCoverFromTheGamesDB, hk]
    · simp only [Bool.or_eq_true] at h
      rcases h with h | h
      · rcases hd : data.data with _ | dd
        · simp [fetchGameCoverFromTheGamesDB, hk, hd]
        · rw [hd] at h
          simp only [Option.isNone_iff_eq_none] at h
          rcases hg : dd.games with _ | gs
          · simp [fetchGameCoverFromTheGamesDB, hk, hd, hg]
          · rw [hg] at h; simp at h
      · rcases data with ⟨dd⟩
        simp only [fetchGameCoverFromTheGamesDB, if_neg hk]
        rcases dd with _ | ⟨cnt, gso⟩
        · rfl
        · rcases gso with _ | gs
          · rfl
          · cases hb : tgdbBestMatch gs title
                (normalizePlatform TGDB_PLATFORM_MAPPING systemName) with
            | none => simp [hb]
            | some bestMatch =>
              rcases bestMatch with ⟨bid, btitle, bplat, bx⟩
              rcases bx with _ | ⟨fr, bk⟩
              · simp [hb]
              · rcases fr with _ | f
                · simp [hb]
                · rcases hi : imagesO with _ | st | imagesData
                  · simp [hb]
                  · simp [hb]
                  · rw [hi] at h; simp [outcomeFailed] at h

theorem fetchItemCover_failed (api : ApiType) (env : NetEnv) (creds : Credentials)
    (i : Nat) (game : GameItem) (h : itemLookupFailed api env i = true) :
    (fetchItemCover api env i game creds).result = "" := by
  cases api with
  | rawg =>
    have h' : (match env.rawgSearch i with
        | FetchOutcome.success data => data.results.isNone
        | _ => true) = true := h
    rcases ho : env.rawgSearch i with _ | st | data
    · simp [fetchItemCover, fetchGameCoverFromRAWG, ho]
    · simp [fetchItemCover, fetchGameCoverFromRAWG, ho]
    · rw [ho] at h'
      simp only [Option.isNone_iff_eq_none] at h'
      simp [fetchItemCover, fetchGameCoverFromRAWG, ho, h']
  | thegamesdb =>
    exact fetchTGDB_failed (env.tgdbSearch i) (env.tgdbImages i)
      game.title game.systemName creds.tgdbApiKey h
  | igdb =>
    have h' : (outcomeFailed (env.igdbAuth i)
        || outcomeFailed (env.igdbSearch i)) = true := h
    rw [Bool.or_eq_true] at h'
    replace h := h'
    by_cases hc : creds.igdbClientId = "" ∨ creds.igdbClientSecret = ""
    · simp [fetchItemCover, fetchGameCoverFromIGDB, hc]
    · rcases h with h | h
      · rcases ha : env.igdbAuth i with _ | st | auth
        · simp [fetchItemCover, fetchGameCoverFromIGDB, hc, ha, getIGDBAccessToken]
        · simp [fetchItemCover, fetchGameCoverFromIGDB, hc, ha, getIGDBAccessToken]
        · rw [ha] at h; simp [outcomeFailed] at h
      · rcases hs : env.igdbSearch i with _ | st | games
        · rcases ha : env.igdbAuth i with _ | st2 | auth <;>
            simp [fetchItemCover, fetchGameCoverFromIGDB, hc, ha, hs, getIGDBAccessToken]
        · rcases ha : env.igdbAuth i with _ | st2 | auth <;>
            simp [fetchItemCover, fetchGameCoverFromIGDB, hc, ha, hs, getIGDBAccessToken]
        · rw [hs] at h; simp [outcomeFailed] at h

/-- Claim C5: in a completed run an item whose per-item lookup fails does not
abort the batch — the output still has one element per input element — and
the failing item's entry carries no imageUrl. -/
theorem processGames_item_failure_skipped_not_fatal :
    ∀ (api : ApiType) (creds : Credentials) (env : NetEnv)
      (games prev : List GameItem),
      (processGames api creds env games prev).error = none →
      (processGames api creds env games prev).output.length = games.length
      ∧ ∀ (i : Nat) (g : GameItem),
          (processGames api creds env games prev).output.get? i = some g →
          itemLookupFailed api env i = true →
          g.imageUrl = none := by
  intro api creds env games prev h
  rw [processGames_completed_output h]
  refine ⟨processLoop_length api env creds games 0, fun i g hg hf => ?_⟩
  rw [processLoop_out_get? api env creds games 0 i] at hg
  simp only [Nat.zero_add] at hg
  cases hgi : games.get? i with
  | none => rw [hgi] at hg; simp at hg
  | some g0 =>
    rw [hgi] at hg
    have hr : (fetchItemCover api env i g0 creds).result = "" :=
      fetchItemCover_failed api env creds i g0 hf
    rw [Option.map_some'] at hg
    injection hg with hg
    rw [← hg]
    simp [hr]

/-- Witness for C5: on a one-item run whose only lookup fails with a network
error, the produced item carries no imageUrl. -/
theorem processGames_item_failure_skipped_not_fatal_witness :
    (⟨"Halo", "Microsoft Xbox", none⟩ : GameItem).imageUrl = none :=
  (processGames_item_failure_skipped_not_fatal ApiType.rawg ⟨"", "", "", ""⟩
    ⟨fun _ => FetchOutcome.netError, fun _ => FetchOutcome.netError,
     fun _ => FetchOutcome.netError, fun _ => FetchOutcome.netError,
     fun _ => FetchOutcome.netError⟩
    [⟨"Halo", "Microsoft Xbox", none⟩] [] (by decide)).2 0
    ⟨"Halo", "Microsoft Xbox", none⟩ (by decide) (by decide)

/-- Claim C6: when the selected provider's required credentials are missing,
the batch aborts with an error before issuing any network request and the
output list is left unchanged. -/
theorem processGames_missing_credentials_aborts :
    ∀ (api : ApiType) (creds : Credentials) (env : NetEnv)
      (games prev : List GameItem),
      ((api = ApiType.thegamesdb ∧ creds.tgdbApiKey = "")
        ∨ (api = ApiType.igdb
            ∧ (creds.igdbClientId = "" ∨ creds.igdbClientSecret = ""))) →
      (processGames api creds env games prev).output = prev
      ∧ (processGames api creds env games prev).requests = 0
      ∧ (processGames api creds env games prev).error.isSome = true := by
  intro api creds env games prev h
  rcases h with ⟨h1, h2⟩ | ⟨h1, h2⟩
  · subst h1
    simp [processGames, h2]
  · subst h1
    have hne : ¬ (ApiType.igdb = ApiType.thegamesdb ∧ creds.tgdbApiKey = "") := by
      simp
    simp [processGames, hne, h2]

/-- Witness for C6: a TheGamesDB run with an empty key issues zero requests. -/
theorem processGames_missing_credentials_aborts_witness :
    (processGames ApiType.thegamesdb ⟨"", "", "", ""⟩
      ⟨fun _ => FetchOutcome.netError, fun _ => FetchOutcome.netError,
       fun _ => FetchOutcome.netError, fun _ => FetchOutcome.netError,
       fun _ => FetchOutcome.netError⟩
      [⟨"Halo", "Microsoft Xbox", none⟩] []).requests = 0 :=
  (processGames_missing_credentials_aborts ApiType.thegamesdb ⟨"", "", "", ""⟩
    ⟨fun _ => FetchOutcome.netError, fun _ => FetchOutcome.netError,
     fun _ => FetchOutcome.netError, fun _ => FetchOutcome.netError,
     fun _ => FetchOutcome.netError⟩
    [⟨"Halo", "Microsoft Xbox", none⟩] [] (Or.inl ⟨rfl, rfl⟩)).2.1

/-- Oracle for the IGDB demonstration runs: the token exchange succeeds and
the search returns an empty candidate list. -/
def igdbDemoEnv : NetEnv :=
  ⟨fun _ => FetchOutcome.netError, fun _ => FetchOutcome.netError,
   fun _ => FetchOutcome.netError,
   fun _ => FetchOutcome.success ⟨"tok", 3600, "bearer"⟩,
   fun _ => FetchOutcome.success []⟩

/-- A concrete two-item IGDB batch input. -/
def igdbDemoGames : List GameItem :=
  [⟨"Halo", "Microsoft Xbox", none⟩, ⟨"Halo 2", "Microsoft Xbox", none⟩]

/-- Claim C3 counterexample: a two-item IGDB batch performs the
client-credentials token exchange twice — once per item — so it is not
performed exactly once per batch run regardless of the item count. -/
theorem igdb_token_exchange_twice_for_two_items :
    (processGames ApiType.igdb ⟨"", "", "cid", "csec"⟩ igdbDemoEnv
        igdbDemoGames []).tokenExchanges = 2
    ∧ ¬ ((processGames ApiType.igdb ⟨"", "", "cid", "csec"⟩ igdbDemoEnv
        igdbDemoGames []).tokenExchanges = 1) := by
  constructor <;> decide

theorem fetchIGDB_tokenExchanges (authO : FetchOutcome IGDBAuthResponse)
    (searchO : FetchOutcome (List IGDBGame))
    (title systemName clientId clientSecret : String)
    (hid : clientId ≠ "") (hsec : clientSecret ≠ "") :
    (fetchGameCoverFromIGDB authO searchO title systemName
      clientId clientSecret).tokenExchanges = 1 := by
  have hc : ¬ (clientId = "" ∨ clientSecret = "") := by simp [hid, hsec]
  unfold fetchGameCoverFromIGDB
  rw [if_neg hc]
  cases authO <;> cases searchO <;> rfl

theorem processLoop_igdb_tokens (env : NetEnv) (creds : Credentials)
    (hid : creds.igdbClientId ≠ "") (hsec : creds.igdbClientSecret ≠ "") :
    ∀ (games : List GameItem) (i : Nat),
      (processLoop ApiType.igdb env creds games i).2.2 = games.length := by
  intro games
  induction games with
  | nil => intro i; rfl
  | cons game rest ih =>
    intro i
    simp only [processLoop, fetchItemCover, List.length_cons, ih (i + 1)]
    rw [fetchIGDB_tokenExchanges _ _ _ _ _ _ hid hsec]
    omega

/-- Claim C3 as amended: for an IGDB batch run with both credentials present
and a well-formed input, the token exchange is performed once per item —
input-length many times per run — not once per run. -/
theorem igdb_token_exchange_once_per_item :
    ∀ (creds : Credentials) (env : NetEnv) (games prev : List GameItem),
      creds.igdbClientId ≠ "" → creds.igdbClientSecret ≠ "" →
      validateGames games = true →
      (processGames ApiType.igdb creds env games prev).tokenExchanges
        = games.length := by
  intro creds env games prev hid hsec hval
  unfold processGames
  rw [if_neg (show ¬ (ApiType.igdb = ApiType.thegamesdb ∧ creds.tgdbApiKey = "")
        by simp),
      if_neg (show ¬ (ApiType.igdb = ApiType.igdb
          ∧ (creds.igdbClientId = "" ∨ creds.igdbClientSecret = ""))
        by simp [hid, hsec]),
      if_pos hval]
  exact processLoop_igdb_tokens env creds hid hsec games 0

/-- Witness for the amended C3: the two-item demonstration batch performs
exactly two token exchanges. -/
theorem igdb_token_exchange_once_per_item_witness :
    (processGames ApiType.igdb ⟨"", "", "cid", "csec"⟩ igdbDemoEnv
      igdbDemoGames []).tokenExchanges = igdbDemoGames.length :=
  igdb_token_exchange_once_per_item ⟨"", "", "cid", "csec"⟩ igdbDemoEnv
    igdbDemoGames [] (by decide) (by decide) (by decide)

/-- Claim C9 as amended: in a completed run every output item's imageUrl is
either absent or a non-empty string — never a present empty value.  The code
does not validate that a present value is a syntactically valid absolute URL:
provider-supplied image fields are passed through verbatim (see the
accompanying counterexample). -/
theorem imageUrl_absent_or_nonempty :
    ∀ (api : ApiType) (creds : Credentials) (env : NetEnv)
      (games prev : List GameItem) (i : Nat) (g : GameItem),
      (processGames api creds env games prev).error = none →
      (processGames api creds env games prev).output.get? i = some g →
      g.imageUrl = none ∨ ∃ s, g.imageUrl = some s ∧ s ≠ "" := by
  intro api creds env games prev i g h hg
  rw [processGames_completed_output h, processLoop_out_get?] at hg
  simp only [Nat.zero_add] at hg
  cases hgi : games.get? i with
  | none => rw [hgi] at hg; simp at hg
  | some g0 =>
    rw [hgi, Option.map_some'] at hg
    injection hg with hg
    rw [← hg]
    by_cases hr : (fetchItemCover api env i g0 creds).result = ""
    · left; simp [hr]
    · right; exact ⟨_, by simp [hr], hr⟩

/-- Oracle for the C9 demonstration: RAWG answers the only search with one
candidate whose image field is the string "x". -/
def c9Env : NetEnv :=
  ⟨fun _ => FetchOutcome.success ⟨some [⟨"Halo", "x", none⟩]⟩,
   fun _ => FetchOutcome.netError, fun _ => FetchOutcome.netError,
   fun _ => FetchOutcome.netError, fun _ => FetchOutcome.netError⟩

/-- Claim C9 counterexample: a completed RAWG run can emit an imageUrl that is
not a syntactically valid absolute URL — the provider-supplied image field
"x" is passed through verbatim. -/
theorem imageUrl_not_always_valid_url :
    ((processGames ApiType.rawg ⟨"", "", "", ""⟩ c9Env
        [⟨"Halo", "Microsoft Xbox", none⟩] []).output.get? 0).bind GameItem.imageUrl
      = some "x"
    ∧ isValidAbsoluteUrl "x" = false := by
  constructor <;> decide

/-- Witness for the amended C9: the item produced by the C9 demonstration run
carries the non-empty value "x". -/
theorem imageUrl_absent_or_nonempty_witness :
    (⟨"Halo", "Microsoft Xbox", some "x"⟩ : GameItem).imageUrl = none
    ∨ ∃ s, (⟨"Halo", "Microsoft Xbox", some "x"⟩ : GameItem).imageUrl = some s
        ∧ s ≠ "" :=
  imageUrl_absent_or_nonempty ApiType.rawg ⟨"", "", "", ""⟩ c9Env
    [⟨"Halo", "Microsoft Xbox", none⟩] [] 0
    ⟨"Halo", "Microsoft Xbox", some "x"⟩ (by decide) (by decide)

/-- Claim C7: for TheGamesDB, when the selected candidate has a front box-art
reference the resolver consumes the secondary images response in the order:
box-art entry whose filename contains "front", else first box-art entry, else
first screenshot entry, else no cover; and a candidate without a front
box-art reference yields no cover without consulting the images response. -/
theorem tgdb_image_fallback_order :
    (∀ (imagesData : TheGamesDBImageData) (gameId : Nat)
      (gameImages : TGDBGameImages),
      imagesData.data.lookup (toString gameId) = some gameImages →
      (∀ boxart e, gameImages.boxart = some boxart →
        boxart.find? (fun img => jsIncludes img.filename "front") = some e →
        tgdbResolveImages imagesData gameId
          = imagesData.base_url ++ "/boxart/front/" ++ e.filename
        ∧ jsIncludes e.filename "front" = true)
      ∧ (∀ boxart b0 bs, gameImages.boxart = some boxart →
          boxart.find? (fun img => jsIncludes img.filename "front") = none →
          boxart = b0 :: bs →
          tgdbResolveImages imagesData gameId
            = imagesData.base_url ++ "/boxart/front/" ++ b0.filename)
      ∧ (∀ s0 ss, (gameImages.boxart = none ∨ gameImages.boxart = some []) →
          gameImages.screenshots = some (s0 :: ss) →
          tgdbResolveImages imagesData gameId
            = imagesData.base_url ++ "/screenshots/" ++ s0.filename)
      ∧ ((gameImages.boxart = none ∨ gameImages.boxart = some []) →
          (gameImages.screenshots = none ∨ gameImages.screenshots = some []) →
          tgdbResolveImages imagesData gameId = ""))
    ∧ (∀ (searchData : TheGamesDBResponse) (dataData : TGDBData)
        (games : List TGDBGame) (imagesO : FetchOutcome TheGamesDBImageData)
        (title systemName apiKey : String) (bestMatch : TGDBGame),
        apiKey ≠ "" →
        searchData.data = some dataData → dataData.games = some games →
        tgdbBestMatch games title
            (normalizePlatform TGDB_PLATFORM_MAPPING systemName)
          = some bestMatch →
        (∀ imagesData, imagesO = FetchOutcome.success imagesData →
            (bestMatch.boxart.bind TGDBBoxart.front).isSome = true →
            (fetchGameCoverFromTheGamesDB (FetchOutcome.success searchData)
              imagesO title systemName apiKey).result
              = tgdbResolveImages imagesData bestMatch.id)
        ∧ (bestMatch.boxart.bind TGDBBoxart.front = none →
            (fetchGameCoverFromTheGamesDB (FetchOutcome.success searchData)
              imagesO title systemName apiKey).result = "")) := by
  constructor
  · intro imagesData gameId gameImages hlk
    refine ⟨?_, ?_, ?_, ?_⟩
    · intro boxart e hb he
      have hp := List.find?_some he
      refine ⟨?_, by simpa using hp⟩
      simp [tgdbResolveImages, hlk, hb, he]
    · intro boxart b0 bs hb hn hcons
      subst hcons
      simp [tgdbResolveImages, hlk, hb, hn]
    · intro s0 ss hbx hs
      rcases hbx with hbx | hbx <;>
        simp [tgdbResolveImages, tgdbScreenshotFallback, hlk, hbx, hs]
    · intro hbx hsc
      rcases hbx with hbx | hbx <;> rcases hsc with hsc | hsc <;>
        simp [tgdbResolveImages, tgdbScreenshotFallback, hlk, hbx, hsc]
  · intro searchData dataData games imagesO title systemName apiKey bestMatch
      hk hd hg hm
    constructor
    · intro imagesData hio hfront
      subst hio
      have hbx : ∃ bx f, bestMatch.boxart = some bx ∧ bx.front = some f := by
        rcases hb : bestMatch.boxart with _ | bx
        · rw [hb] at hfront; simp at hfront
        · rcases hf : bx.front with _ | f
          · rw [hb] at hfront; simp [hf] at hfront
          · exact ⟨bx, f, rfl, hf⟩
      obtain ⟨bx, f, hb, hf⟩ := hbx
      simp [fetchGameCoverFromTheGamesDB, hk, hd, hg, hm, hb, hf]
    · intro hfront
      rcases hb : bestMatch.boxart with _ | bx
      · simp [fetchGameCoverFromTheGamesDB, hk, hd, hg, hm, hb]
      · have hf : bx.front = none := by
          rw [hb] at hfront
          simpa using hfront
        simp [fetchGameCoverFromTheGamesDB, hk, hd, hg, hm, hb, hf]

/-- Witness for C7: the screenshots-only fixture of the spec — no box-art,
one screenshot — resolves to the screenshot URL. -/
theorem tgdb_image_fallback_order_witness :
    tgdbResolveImages
      ⟨"https://cdn.tgdb", [("7", ⟨none, some [⟨"1x", "shot1.jpg"⟩]⟩)]⟩ 7
      = "https://cdn.tgdb" ++ "/screenshots/" ++ "shot1.jpg" :=
  ((tgdb_image_fallback_order.1
    ⟨"https://cdn.tgdb", [("7", ⟨none, some [⟨"1x", "shot1.jpg"⟩]⟩)]⟩ 7
    ⟨none, some [⟨"1x", "shot1.jpg"⟩]⟩ (by decide)).2.2.1
    ⟨"1x", "shot1.jpg"⟩ [] (Or.inl rfl) rfl)

/-- Claim C10: when no box-art filename contains "front" and the resolver
falls back to the first box-art entry, the returned URL still uses the fixed
"/boxart/front/" path segment followed by that entry's filename, even though
the chosen entry is not a front box-art. -/
theorem tgdb_first_boxart_uses_front_path :
    ∀ (imagesData : TheGamesDBImageData) (gameId : Nat)
      (gameImages : TGDBGameImages) (boxart : List TGDBImageEntry)
      (b0 : TGDBImageEntry) (bs : List TGDBImageEntry),
      imagesData.data.lookup (toString gameId) = some gameImages →
      gameImages.boxart = some boxart →
      boxart.find? (fun img => jsIncludes img.filename "front") = none →
      boxart = b0 :: bs →
      jsIncludes b0.filename "front" = false
      ∧ tgdbResolveImages imagesData gameId
          = imagesData.base_url ++ "/boxart/front/" ++ b0.filename := by
  intro imagesData gameId gameImages boxart b0 bs hlk hb hn hcons
  subst hcons
  constructor
  · have hmem := List.find?_eq_none.mp hn b0 (List.mem_cons_self _ _)
    simpa using hmem
  · simp [tgdbResolveImages, hlk, hb, hn]

/-- Witness for C10: a single back box-art entry still yields a URL under the
"/boxart/front/" path. -/
theorem tgdb_first_boxart_uses_front_path_witness :
    jsIncludes "back.jpg" "front" = false
    ∧ tgdbResolveImages
        ⟨"https://cdn.tgdb", [("5", ⟨some [⟨"1x", "back.jpg"⟩], none⟩)]⟩ 5
        = "https://cdn.tgdb" ++ "/boxart/front/" ++ "back.jpg" :=
  tgdb_first_boxart_uses_front_path
    ⟨"https://cdn.tgdb", [("5", ⟨some [⟨"1x", "back.jpg"⟩], none⟩)]⟩ 5
    ⟨some [⟨"1x", "back.jpg"⟩], none⟩ [⟨"1x", "back.jpg"⟩] ⟨"1x", "back.jpg"⟩ []
    (by decide) rfl (by decide) rfl
